import Mathlib

/-!
Verification of the Orbitguard conjunction-risk pipeline.

This file shallowly embeds the parts of the repository that the verified
properties are about:

* `TimeSeriesPreprocessor` (`app/backend/ml/preprocessor.py` and
  `app/pipeline/preprocessor.py`): grouping of raw CDM records by
  (SAT_1_ID, SAT_2_ID, TCA floored to the minute), per-event sorting by
  CREATED, feature extraction, and zero pre-padding / truncation to a
  fixed sequence length.
* `CollisionRiskSkipLSTM` (`backend/ml/model.py`): the residual
  (skip-connection) recurrent forecaster.
* `MLRunner.predict` (`app/backend/ml/runner.py`): the deployed backend
  prediction path.
* `process_and_export` (`app/backend/spacetrack_client.py`): the GRAY
  fallback when no prediction is available for an encounter.
* the `inference` dashboard assembly (`app/backend/src/main.py`):
  traffic-light status, trend, and hours-to-decision.
* `CertaintyEstimator.calculate_uncertainty` (`app/model/lstm_model.py`):
  MC-dropout certainty and its train-mode side effect.

Python floats are embedded as exact rationals (`ℚ`); the transcendental
helpers the code applies (log10, log1p, 10**x, sigmoid, tanh) are taken
as explicit function parameters, since none of the verified properties
depend on their values.  Timestamps are integer epoch seconds.  The real
analysis about the certainty formula lives over `ℝ`.
-/

/-- A raw conjunction data message, with only the fields the verified
pipeline reads.  Numeric coercion of string-encoded fields happens
upstream in the source (`_clean_dataframe` / `float(...)`); this type is
the already-parsed record.  `pc` is the collision probability after the
source's `fillna(0.0)`; `minRng` keeps the optional miss distance.
Timestamps `tca` and `created` are epoch seconds. -/
structure CDM where
  sat1 : ℤ
  sat2 : ℤ
  tca : ℤ
  created : ℤ
  pc : ℚ
  minRng : Option ℚ
deriving DecidableEq

/-- Event keys: the triple (SAT_1_ID, SAT_2_ID, TCA floored to the
minute), embedding the source's string key
`f"{sat1}_{sat2}_{tca_minute.isoformat()}"` injectively. -/
abbrev EventKey := ℤ × ℤ × ℤ

/-- `df['TCA_GROUP'] = pd.to_datetime(df['TCA']).dt.floor('min')`:
flooring an epoch-seconds timestamp to the minute. -/
def floorToMinute (t : ℤ) : ℤ := 60 * (t.fdiv 60)

/-- The grouping key of `TimeSeriesPreprocessor.process` (and the
matching `encounter_key` of `process_and_export`). -/
def eventKey (m : CDM) : EventKey := (m.sat1, m.sat2, floorToMinute m.tca)

/-- One row of the LSTM input: (scaled PC, scaled miss distance,
hours to TCA), as built by `_extract_features`. -/
abbrev Row := ℚ × ℚ × ℚ

/-- The transcendental float helpers used by `_extract_features`
(`np.log10`, `np.log1p`) and by the runner (`10**pred`).  They are kept
abstract: no verified property depends on their values. -/
structure FloatFuns where
  flog10 : ℚ → ℚ
  flog1p : ℚ → ℚ
  fpow10 : ℚ → ℚ

/-- A concrete instantiation of the abstract float helpers, used to
evaluate the pipeline on concrete inputs. -/
def idFuns : FloatFuns := ⟨id, id, id⟩

/-- One feature row of `_extract_features`
(`app/backend/ml/preprocessor.py`):
`pc_log = log10(max(pc, 1e-30))`,
`min_rng_log = log1p(nan_to_num(min_rng, nan=100000.0))`,
`time_to_tca = (TCA - CREATED).total_seconds() / 3600`. -/
def featureRow (ff : FloatFuns) (m : CDM) : Row :=
  (ff.flog10 (max m.pc (1 / 10 ^ 30)),
   ff.flog1p (m.minRng.getD 100000),
   ((m.tca : ℚ) - (m.created : ℚ)) / 3600)

/-- Ascending order on creation time, the sort relation of
`group.sort_values('CREATED')`. -/
def createdLE (a b : CDM) : Prop := a.created ≤ b.created

/-- Strict ascending order on creation time (used to show that sorting
is unambiguous when creation times are distinct). -/
def createdLT (a b : CDM) : Prop := a.created < b.created

instance : DecidableRel createdLE := fun a b =>
  inferInstanceAs (Decidable (a.created ≤ b.created))

instance : IsTotal CDM createdLE := ⟨fun a b => le_total a.created b.created⟩

instance : IsTrans CDM createdLE := ⟨fun _ _ _ hab hbc => le_trans hab hbc⟩

instance : IsAntisymm CDM createdLT :=
  ⟨fun _ _ hab hba => absurd (lt_trans hab hba) (lt_irrefl _)⟩

/-- `group.sort_values('CREATED')`: sort a group of messages ascending
by creation time (modelled by a deterministic stable sort). -/
def sortByCreated (l : List CDM) : List CDM := List.insertionSort createdLE l

/-- The group of messages of one event: the rows of
`df.groupby(['SAT_1_ID', 'SAT_2_ID', 'TCA_GROUP'])` for one key. -/
def groupOf (l : List CDM) (k : EventKey) : List CDM :=
  l.filter fun m => decide (eventKey m = k)

/-- The Python slice `xs[-L:]`: the last `L` elements, except that
`xs[-0:]` is the whole list. -/
def pySliceLast {α : Type} (L : ℕ) (xs : List α) : List α :=
  if L = 0 then xs else xs.drop (xs.length - L)

/-- The all-zero padding row (`np.zeros`). -/
def zeroRow : Row := (0, 0, 0)

/-- `_pad_or_truncate_sequence`: if the event history has at least
`L` rows keep the last `L` (`features[-L:]`), otherwise stack
`L - len` zero rows in front (`np.vstack((padding, features))`). -/
def padOrTruncateRows (L : ℕ) (feats : List Row) : List Row :=
  if L ≤ feats.length then pySliceLast L feats
  else List.replicate (L - feats.length) zeroRow ++ feats

/-- The per-event sequence built by `TimeSeriesPreprocessor.process`:
sort the history by CREATED, extract features, pad or truncate to the
configured sequence length. -/
def buildSequence (ff : FloatFuns) (L : ℕ) (history : List CDM) : List Row :=
  padOrTruncateRows L ((sortByCreated history).map (featureRow ff))

/-- The sequence the preprocessor produces for event key `k` out of the
raw message list `l`. -/
def eventSequenceAt (ff : FloatFuns) (L : ℕ) (l : List CDM) (k : EventKey) : List Row :=
  buildSequence ff L (groupOf l k)

/-- The event keys present in a raw message list (the groups of the
pandas `groupby`; the order of keys is irrelevant to every property
proved below). -/
def eventKeysOf (l : List CDM) : List EventKey := (l.map eventKey).dedup

/-- Traffic-light status values, including the GRAY
no-forecast-available fallback of `process_and_export`. -/
inductive TLStatus
  | RED
  | YELLOW
  | GREEN
  | GRAY
deriving DecidableEq

/-- `miss_dist is not None and miss_dist < critical_dist`
(`app/backend/src/main.py`). -/
def missBelow (crit : ℚ) : Option ℚ → Bool
  | some d => decide (d < crit)
  | none => false

/-- Traffic-light computation of the `inference` dashboard
(`app/backend/src/main.py` lines 173-182): RED on high forecast, else
RED on known close miss distance, else YELLOW on medium forecast, else
GREEN. -/
def mainStatus (high med crit : ℚ) (pred : ℚ) (miss : Option ℚ) : TLStatus :=
  if high ≤ pred then TLStatus.RED
  else if missBelow crit miss then TLStatus.RED
  else if med ≤ pred then TLStatus.YELLOW
  else TLStatus.GREEN

/-- Status computation of `MLRunner.predict`
(`app/backend/ml/runner.py` lines 77-82): thresholds hard-coded at
-4.0 / -5.0 on the log10 forecast, and no miss-distance input at all. -/
def runnerStatus (pred : ℚ) : TLStatus :=
  if (-4 : ℚ) ≤ pred then TLStatus.RED
  else if (-5 : ℚ) ≤ pred then TLStatus.YELLOW
  else TLStatus.GREEN

/-- Risk-trend labels. -/
inductive RiskTrend
  | INCREASING
  | DECREASING
  | STABLE
deriving DecidableEq

/-- The trend comparison of `app/backend/src/main.py` lines 197-202:
`delta = pred - curr`; INCREASING when `delta > curr * 0.1`, DECREASING
when `delta < -(curr * 0.1)`, else STABLE. -/
def trendOf (pred curr : ℚ) : RiskTrend :=
  if curr * (1 / 10) < pred - curr then RiskTrend.INCREASING
  else if pred - curr < -(curr * (1 / 10)) then RiskTrend.DECREASING
  else RiskTrend.STABLE

/-- Lines 195-202: trend starts STABLE and is recomputed from the last
raw PC of the event history when the history is nonempty. -/
def histTrend (pred : ℚ) (histPc : List ℚ) : RiskTrend :=
  match histPc.getLast? with
  | none => RiskTrend.STABLE
  | some curr => trendOf pred curr

/-- Lines 184-191: `tlo = tca - Timedelta(hours=reaction_time)`;
`hours_remaining = (tlo - latest_msg_time).total_seconds() / 3600`. -/
def hoursRemaining (reactionH : ℚ) (tca latest : ℤ) : ℚ :=
  (((tca : ℚ) - reactionH * 3600) - (latest : ℚ)) / 3600

/-- Python's `round(x, 2)`: round to the nearest multiple of 1/100
(Python resolves exact ties to even on binary floats; the tie case is
not exercised by any theorem below). -/
def roundQ2 (q : ℚ) : ℚ := ((round (q * 100) : ℤ) : ℚ) / 100

/-- The threshold configuration block read by `inference`
(`config['thresholds']`). -/
structure Thresholds where
  highRisk : ℚ
  mediumRisk : ℚ
  reactionTimeHours : ℚ
  missDistanceCritical : ℚ

/-- The per-event metadata dictionary built by the preprocessor
(`meta_list`), restricted to the fields `inference` reads. -/
structure EventMeta where
  sat1 : ℤ
  sat2 : ℤ
  tca : ℤ
  latestMinRng : Option ℚ
  latestPc : ℚ
  latestCreated : ℤ
deriving DecidableEq

/-- One row of the `predictions_dashboard.csv` output of `inference`
(the fields relevant to status, trend and the decision countdown). -/
structure DashRecord where
  sat1 : ℤ
  sat2 : ℤ
  predictedPc : ℚ
  latestPc : ℚ
  certainty : ℚ
  riskStatus : TLStatus
  hoursToDecision : ℚ
  riskTrend : RiskTrend
deriving DecidableEq

/-- The dashboard record `inference` appends for one event
(`app/backend/src/main.py` lines 169-231): traffic light, rounded
hours-to-decision (`round(hours_remaining, 2)`), and trend. -/
def buildDash (cfg : Thresholds) (pred cert : ℚ) (meta : EventMeta)
    (histPc : List ℚ) : DashRecord :=
  { sat1 := meta.sat1
    sat2 := meta.sat2
    predictedPc := pred
    latestPc := meta.latestPc
    certainty := cert
    riskStatus := mainStatus cfg.highRisk cfg.mediumRisk cfg.missDistanceCritical
      pred meta.latestMinRng
    hoursToDecision := roundQ2 (hoursRemaining cfg.reactionTimeHours meta.tca meta.latestCreated)
    riskTrend := histTrend pred histPc }

/-- The full result list of the `inference` loop: one record per
predicted event, appended unconditionally (in particular regardless of
the sign of the hours-to-decision value). -/
def dashRecords (cfg : Thresholds) (rows : List (ℚ × ℚ × EventMeta × List ℚ)) :
    List DashRecord :=
  rows.map fun r => buildDash cfg r.1 r.2.1 r.2.2.1 r.2.2.2

/-- The parameters of one `nn.LSTM` layer with input width `n` and
hidden width `h`.  torch stores the input-hidden and hidden-hidden
matrices stacked as `(4h, n)` / `(4h, h)` blocks in gate order
(input, forget, cell, output); here the stacking index is split into
the gate index `Fin 4` and the unit index `Fin h`. -/
structure LSTMLayer (n h : ℕ) where
  wih : Fin 4 → Fin h → Fin n → ℚ
  whh : Fin 4 → Fin h → Fin h → ℚ
  bih : Fin 4 → Fin h → ℚ
  bhh : Fin 4 → Fin h → ℚ

/-- One LSTM cell step, with the sigmoid and tanh nonlinearities passed
in as abstract functions `sg`/`th`.  Gate order (i, f, g, o) matches
torch: `i = sg(pre 0)`, `f = sg(pre 1)`, `g = th(pre 2)`,
`o = sg(pre 3)`, `c = f*c + i*g`, `h = o * th(c)`. -/
def lstmCell (sg th : ℚ → ℚ) {n h : ℕ} (p : LSTMLayer n h)
    (hc : (Fin h → ℚ) × (Fin h → ℚ)) (x : Fin n → ℚ) :
    (Fin h → ℚ) × (Fin h → ℚ) :=
  let pre : Fin 4 → Fin h → ℚ := fun g j =>
    (∑ i, p.wih g j i * x i) + p.bih g j + (∑ i, p.whh g j i * hc.1 i) + p.bhh g j
  let iG : Fin h → ℚ := fun j => sg (pre 0 j)
  let fG : Fin h → ℚ := fun j => sg (pre 1 j)
  let gG : Fin h → ℚ := fun j => th (pre 2 j)
  let oG : Fin h → ℚ := fun j => sg (pre 3 j)
  let c : Fin h → ℚ := fun j => fG j * hc.2 j + iG j * gG j
  (fun j => oG j * th (c j), c)

/-- Run one LSTM layer over an input sequence from zero initial hidden
and cell state (`h0 = c0 = zeros`), collecting the hidden state of each
timestep (torch's `out`). -/
def runLayer (sg th : ℚ → ℚ) {n h : ℕ} (p : LSTMLayer n h)
    (xs : List (Fin n → ℚ)) : List (Fin h → ℚ) :=
  (xs.foldl
    (fun (acc : ((Fin h → ℚ) × (Fin h → ℚ)) × List (Fin h → ℚ)) x =>
      let hc := lstmCell sg th p acc.1 x
      (hc, acc.2 ++ [hc.1]))
    (((fun _ => 0), fun _ => 0), [])).2

/-- The parameters of `CollisionRiskSkipLSTM` (`backend/ml/model.py`):
a stacked LSTM (first layer reads the 3 input features, later layers
read the `h` hidden units; inter-layer dropout is inactive outside
training mode) and the linear head `fc` that produces the delta. -/
structure SkipLSTMParams (h : ℕ) where
  layer1 : LSTMLayer 3 h
  rest : List (LSTMLayer h h)
  fcW : Fin h → ℚ
  fcB : ℚ

/-- The recurrent encoder of `CollisionRiskSkipLSTM.forward`: the
stacked LSTM applied to the input sequence, yielding the top layer's
hidden-state sequence (`out` in the source). -/
def runEncoder (sg th : ℚ → ℚ) {h : ℕ} (p : SkipLSTMParams h)
    (xs : List (Fin 3 → ℚ)) : List (Fin h → ℚ) :=
  p.rest.foldl (fun seq layer => runLayer sg th layer seq) (runLayer sg th p.layer1 xs)

/-- View a feature row as the 3-vector fed to the LSTM. -/
def rowToVec (r : Row) : Fin 3 → ℚ := ![r.1, r.2.1, r.2.2]

/-- The linear head: `self.fc(out[:, -1, :])`. -/
def linHead {h : ℕ} (p : SkipLSTMParams h) (v : Fin h → ℚ) : ℚ :=
  (∑ j, p.fcW j * v j) + p.fcB

/-- The final hidden state of the encoder (`out[:, -1, :]`); the
default for an empty sequence is never reached, since every built
sequence has the configured positive length. -/
def finalHidden (sg th : ℚ → ℚ) {h : ℕ} (p : SkipLSTMParams h)
    (xs : List Row) : Fin h → ℚ :=
  (runEncoder sg th p (xs.map rowToVec)).getLastD (fun _ => 0)

/-- `x[:, -1, 0]`: the probability feature of the last timestep. -/
def lastPcFeature (xs : List Row) : ℚ := (xs.getLastD zeroRow).1

/-- `CollisionRiskSkipLSTM.forward` for one sequence: run the stacked
LSTM, decode the last hidden state to a delta, and add the last known
probability feature (`return latest_pc + delta`). -/
def skipForward (sg th : ℚ → ℚ) {h : ℕ} (p : SkipLSTMParams h)
    (xs : List Row) : ℚ :=
  let out := runEncoder sg th p (xs.map rowToVec)
  let delta := linHead p (out.getLastD (fun _ => 0))
  let latest := (xs.getLastD zeroRow).1
  latest + delta

/-- The batched forward pass: one forecast per stacked sequence. -/
def batchForward (sg th : ℚ → ℚ) {h : ℕ} (p : SkipLSTMParams h)
    (batch : List (List Row)) : List ℚ :=
  batch.map (skipForward sg th p)

/-- One prediction record of `MLRunner.predict`
(`app/backend/ml/runner.py` lines 83-88). -/
structure PredRecord where
  riskLog10 : ℚ
  riskProb : ℚ
  status : TLStatus
  certainty : ℚ
deriving DecidableEq

/-- `MLRunner.predict`: returns the empty map when the model is not
ready (weights missing or failed to load) or the input is empty;
otherwise preprocesses the raw data (sequence length 5), runs the skip
LSTM, and emits per-event records with hard-coded thresholds and
`AI_CERTAINTY = 0.95`. -/
def runnerPredict (ready : Bool) (ff : FloatFuns) (sg th : ℚ → ℚ) {h : ℕ}
    (p : SkipLSTMParams h) (raw : List CDM) : List (EventKey × PredRecord) :=
  if ready = false ∨ raw = [] then []
  else
    (eventKeysOf raw).map fun k =>
      let pred := skipForward sg th p (eventSequenceAt ff 5 raw k)
      (k,
        { riskLog10 := pred
          riskProb := ff.fpow10 pred
          status := runnerStatus pred
          certainty := 0.95 })

/-- The merge step of `process_and_export`
(`app/backend/spacetrack_client.py`): a new encounter object starts
with `AI_STATUS = "GRAY"` and is overwritten by the ML prediction only
when its key is present in the prediction map. -/
def assembleStatus (ml : List (EventKey × PredRecord)) (k : EventKey) : TLStatus :=
  match ml.find? fun kr => decide (kr.1 = k) with
  | some kr => kr.2.status
  | none => TLStatus.GRAY

/-- The statuses of all encounters assembled by `process_and_export`.
`payload` stands for the source's record filter (required fields
present and `SAT1_OBJECT_TYPE == "PAYLOAD"`), which lives on fields
outside the embedded record. -/
def assembledStatuses (ml : List (EventKey × PredRecord)) (payload : CDM → Bool)
    (raw : List CDM) : List (EventKey × TLStatus) :=
  (eventKeysOf (raw.filter payload)).map fun k => (k, assembleStatus ml k)

/-- The state of a torch `nn.Module` relevant to
`CertaintyEstimator.calculate_uncertainty`: its weights and its
train/eval mode flag (`model.train()` / `model.eval()`). -/
structure TorchModule (W : Type) where
  weights : W
  training : Bool

/-- The mean of the sampled outputs. -/
noncomputable def sampleMean (l : List ℝ) : ℝ := l.sum / l.length

/-- The unbiased sample variance of `torch.Tensor.std` (Bessel
correction, divisor `n - 1`). -/
noncomputable def sampleVar (l : List ℝ) : ℝ :=
  (l.map fun x => (x - sampleMean l) ^ 2).sum / (l.length - 1)

/-- `torch.tensor(outputs).std().item()`: the sample standard
deviation of the stochastic forward passes. -/
noncomputable def sampleStd (l : List ℝ) : ℝ := Real.sqrt (sampleVar l)

/-- The certainty formula of `calculate_uncertainty`:
`certainty = 1.0 / (1.0 + std_dev * 100)`, with the fixed scaling
constant `k = 100`. -/
noncomputable def certaintyOfStd (s : ℝ) : ℝ := 1 / (1 + s * 100)

/-- `CertaintyEstimator.calculate_uncertainty`
(`app/model/lstm_model.py` lines 52-68), with the module state passed
explicitly: it switches the model into training mode (`model.train()`,
enabling dropout), runs `num_samples` stochastic forward passes (the
per-pass dropout noise is the `noises` list, consumed by the abstract
training-mode forward `fwdT`), and maps the sample standard deviation
of the outputs to a certainty.  The updated module state is returned;
the source never calls `model.eval()` afterwards. -/
noncomputable def calculate_uncertainty {W I N : Type} (fwdT : W → N → I → ℝ)
    (model : TorchModule W) (x : I) (noises : List N) : ℝ × TorchModule W :=
  let m := { model with training := true }
  let outputs := noises.map fun nz => fwdT m.weights nz x
  (1 / (1 + sampleStd outputs * 100), m)

/-- A plain forward pass of a torch module: dropout noise is applied
exactly when the module is in training mode (`fwdT`), and the
deterministic eval-mode forward `fwdE` runs otherwise. -/
def forwardPass {W I N : Type} (fwdT : W → N → I → ℝ) (fwdE : W → I → ℝ)
    (m : TorchModule W) (nz : N) (x : I) : ℝ :=
  if m.training then fwdT m.weights nz x else fwdE m.weights x

/-- A concrete threshold configuration (log10 convention):
high −4.0, medium −5.0, reaction window 6 h, critical distance 1000 m. -/
def cfg0 : Thresholds := ⟨-4, -5, 6, 1000⟩

/-- A concrete event: one message created at epoch 0, TCA at epoch
3600, probability 1/2, miss distance 30 m. -/
def mW : CDM := ⟨1, 2, 3600, 0, 1 / 2, some 30⟩

/-- A message of event (1, 2, 60): created at 0, probability 1. -/
def mA : CDM := ⟨1, 2, 90, 0, 1, some 30⟩

/-- A second message of event (1, 2, 60) with the same creation time 0
as `mA` but different probability and miss distance. -/
def mB : CDM := ⟨1, 2, 90, 0, 2, some 40⟩

/-- A second message of event (1, 2, 60) created strictly later than
`mA`. -/
def mD : CDM := ⟨1, 2, 90, 10, 2, some 40⟩

/-- The key of the event the concrete messages above belong to. -/
def keyW : EventKey := (1, 2, 60)

/-- Concrete event metadata whose exact hours-to-decision value,
1/3600 h, is not representable with two decimals: TCA one second past
the six-hour reaction window. -/
def metaC7 : EventMeta := ⟨1, 2, 21601, some 5000, 1 / 100000, 0⟩

/-- C1. The claim reads both cited code paths as computing the
traffic light with the miss-distance override.  The `inference` path
does; the deployed `MLRunner.predict` path computes the status from the
forecast alone, so an event with forecast −8 and a 30 m miss distance
(critical 1000 m) gets GREEN there, not the claimed RED. -/
theorem c1_counterexample :
    runnerStatus (-8) = TLStatus.GREEN ∧
    mainStatus (-4) (-5) 1000 (-8) (some 30) = TLStatus.RED ∧
    (TLStatus.GREEN == TLStatus.RED) = false := by
  decide

/-- C1 (amended).  In `inference` (`app/backend/src/main.py`) the
status follows exactly the claimed priority order — RED on high
forecast, else RED on a known miss distance below the critical
distance, else YELLOW on medium forecast, else GREEN, with the
proximity override firing at forecast −8 / miss 30 m / critical
1000 m — while `MLRunner.predict` maps the forecast alone through the
hard-coded −4/−5 thresholds. -/
theorem c1_traffic_light (high med crit pred : ℚ) (miss : Option ℚ) :
    (high ≤ pred → mainStatus high med crit pred miss = TLStatus.RED) ∧
    (pred < high → missBelow crit miss = true →
      mainStatus high med crit pred miss = TLStatus.RED) ∧
    (pred < high → missBelow crit miss = false → med ≤ pred →
      mainStatus high med crit pred miss = TLStatus.YELLOW) ∧
    (pred < high → missBelow crit miss = false → pred < med →
      mainStatus high med crit pred miss = TLStatus.GREEN) ∧
    mainStatus (-4) (-5) 1000 (-8) (some 30) = TLStatus.RED ∧
    runnerStatus pred =
      (if (-4 : ℚ) ≤ pred then TLStatus.RED
       else if (-5 : ℚ) ≤ pred then TLStatus.YELLOW
       else TLStatus.GREEN) := by
  refine ⟨?_, ?_, ?_, ?_, by decide, rfl⟩
  · intro hh
    simp [mainStatus, hh]
  · intro hh hm
    simp [mainStatus, not_le.mpr hh, hm]
  · intro hh hm hmed
    simp [mainStatus, not_le.mpr hh, hm, hmed]
  · intro hh hm hmed
    simp [mainStatus, not_le.mpr hh, hm, not_le.mpr hmed]

/-- C1 witness: a forecast at the high threshold is RED in the
`inference` path. -/
theorem c1_traffic_light_witness :
    mainStatus (-4) (-5) 1000 (-3) none = TLStatus.RED :=
  (c1_traffic_light (-4) (-5) 1000 (-3) none).1 (by norm_num)

/-- C3. The claim states that at a zero latest raw probability any
non-positive forecast yields STABLE.  The code has no special case: at
`curr = 0` the band `±curr*0.1` collapses to zero width, so the
forecast −8 yields DECREASING, not STABLE. -/
theorem c3_counterexample :
    trendOf (-8) 0 = RiskTrend.DECREASING ∧
    (RiskTrend.DECREASING == RiskTrend.STABLE) = false := by
  refine ⟨?_, by decide⟩
  norm_num [trendOf]

/-- C3 (amended).  There is no special case at zero: the one
percentage comparison always applies.  At `curr = 0` it degenerates to
the sign of the forecast — positive ⇒ INCREASING, negative ⇒
DECREASING, zero ⇒ STABLE — and the trend of an event is that
comparison against the last raw probability of its history (STABLE for
an empty history). -/
theorem c3_trend_at_zero (pred curr : ℚ) (histPc : List ℚ) :
    trendOf pred 0 =
      (if 0 < pred then RiskTrend.INCREASING
       else if pred < 0 then RiskTrend.DECREASING
       else RiskTrend.STABLE) ∧
    histTrend pred histPc =
      (match histPc.getLast? with
       | none => RiskTrend.STABLE
       | some c => trendOf pred c) ∧
    trendOf pred curr =
      (if curr * (1 / 10) < pred - curr then RiskTrend.INCREASING
       else if pred - curr < -(curr * (1 / 10)) then RiskTrend.DECREASING
       else RiskTrend.STABLE) := by
  refine ⟨?_, rfl, rfl⟩
  simp [trendOf]

/-- C6.  `CollisionRiskSkipLSTM.forward` returns the linear head of
the encoder's final hidden state plus the probability feature of the
last input timestep, and a batch is forecast elementwise. -/
theorem c6_skip_connection (sg th : ℚ → ℚ) (h : ℕ) (p : SkipLSTMParams h)
    (xs : List Row) (batch : List (List Row)) :
    skipForward sg th p xs = linHead p (finalHidden sg th p xs) + lastPcFeature xs ∧
    batchForward sg th p batch = batch.map (skipForward sg th p) := by
  constructor
  · simp [skipForward, finalHidden, lastPcFeature, add_comm]
  · rfl

/-- C7. The claim says the output field equals the exact
hours-to-decision formula, but `inference` stores
`round(hours_remaining, 2)`: one second inside the window the exact
value is 1/3600 h while the record carries 0. -/
theorem c7_counterexample :
    (buildDash cfg0 (-8) (19 / 20) metaC7 []).hoursToDecision = 0 ∧
    hoursRemaining 6 21601 0 = 1 / 3600 ∧
    (0 : ℚ) < 1 / 3600 := by
  refine ⟨?_, by norm_num [hoursRemaining], by norm_num⟩
  show roundQ2 (hoursRemaining cfg0.reactionTimeHours metaC7.tca metaC7.latestCreated) = 0
  norm_num [roundQ2, hoursRemaining, cfg0, metaC7, round_eq]

/-- C7 (amended).  `hours_to_decision` equals
`((tca − reaction_time_window) − latest_message_time)` in hours,
rounded to two decimal places; with TCA = T, a 6 h window and the
latest message at T − 20 h the value is exactly 14; a negative value
(window already passed, here −7) is likewise produced; and the output
has one record per event — none is dropped. -/
theorem c7_hours_to_decision (cfg : Thresholds) (pred cert : ℚ) (meta : EventMeta)
    (histPc : List ℚ) (rows : List (ℚ × ℚ × EventMeta × List ℚ)) (T : ℤ) :
    (buildDash cfg pred cert meta histPc).hoursToDecision =
      roundQ2 ((((meta.tca : ℚ) - cfg.reactionTimeHours * 3600) -
        (meta.latestCreated : ℚ)) / 3600) ∧
    hoursRemaining 6 T (T - 72000) = 14 ∧
    roundQ2 (hoursRemaining 6 T (T - 72000)) = 14 ∧
    roundQ2 (hoursRemaining 6 T (T + 3600)) = -7 ∧
    (dashRecords cfg rows).length = rows.length := by
  have h14 : hoursRemaining 6 T (T - 72000) = 14 := by
    unfold hoursRemaining
    push_cast
    ring
  have hm7 : hoursRemaining 6 T (T + 3600) = -7 := by
    unfold hoursRemaining
    push_cast
    ring
  refine ⟨rfl, h14, ?_, ?_, by simp [dashRecords]⟩
  · rw [h14]; norm_num [roundQ2, round_eq]
  · rw [hm7]; norm_num [roundQ2, round_eq]

/-- C8.  When the model weights are missing or fail to load the runner
is not ready: `predict` returns the empty map, and every encounter
assembled by `process_and_export` keeps its initial GRAY status, which
is a different value than GREEN. -/
theorem c8_gray_fallback (ff : FloatFuns) (sg th : ℚ → ℚ) (h : ℕ)
    (p : SkipLSTMParams h) (raw : List CDM) (payload : CDM → Bool) :
    runnerPredict false ff sg th p raw = [] ∧
    ((assembledStatuses (runnerPredict false ff sg th p raw) payload raw).all
      fun ks => ks.2 == TLStatus.GRAY) = true ∧
    (TLStatus.GRAY == TLStatus.GREEN) = false := by
  have h1 : runnerPredict false ff sg th p raw = [] := by
    unfold runnerPredict
    simp
  refine ⟨h1, ?_, by decide⟩
  rw [h1]
  simp only [assembledStatuses, assembleStatus, List.find?_nil, List.all_eq_true]
  intro ks hks
  simp only [List.mem_map] at hks
  obtain ⟨k, -, rfl⟩ := hks
  rfl

/-- C9.  Every record `MLRunner.predict` emits carries the constant
`AI_CERTAINTY = 0.95`, independent of the input, the model parameters,
and any sampling: the deployed backend path does no stochastic
uncertainty estimation. -/
theorem c9_constant_certainty (ready : Bool) (ff : FloatFuns) (sg th : ℚ → ℚ)
    (h : ℕ) (p : SkipLSTMParams h) (raw : List CDM) :
    ((runnerPredict ready ff sg th p raw).all
      fun kr => kr.2.certainty == (0.95 : ℚ)) = true := by
  unfold runnerPredict
  split
  · rfl
  · simp only [List.all_eq_true]
    intro kr hkr
    simp only [List.mem_map] at hkr
    obtain ⟨k, -, rfl⟩ := hkr
    simp

/-- C10.  `calculate_uncertainty` switches the module into training
mode and never restores evaluation mode: afterwards the module is in
training mode with unchanged weights, and any subsequent plain forward
pass takes the dropout-active (training) branch. -/
theorem c10_leaves_training_mode {W I N : Type} (fwdT : W → N → I → ℝ)
    (model : TorchModule W) (x : I) (noises : List N) (fwdE : W → I → ℝ)
    (nz : N) (x2 : I) :
    (calculate_uncertainty fwdT model x noises).2.training = true ∧
    (calculate_uncertainty fwdT model x noises).2.weights = model.weights ∧
    forwardPass fwdT fwdE (calculate_uncertainty fwdT model x noises).2 nz x2 =
      fwdT model.weights nz x2 := by
  refine ⟨rfl, rfl, ?_⟩
  simp [forwardPass, calculate_uncertainty]

/-- A sorted-by-CREATED list whose creation times are pairwise distinct
is also sorted strictly. -/
theorem sorted_createdLT_of_nodup (s : List CDM)
    (hs : List.Sorted createdLE s) (hn : (s.map CDM.created).Nodup) :
    List.Sorted createdLT s := by
  have hne : s.Pairwise fun a b => a.created ≠ b.created := List.pairwise_map.mp hn
  exact (hs.and hne).imp fun hab => lt_of_le_of_ne hab.1 hab.2

/-- Sorting by CREATED is permutation-invariant as soon as the creation
times in the list are pairwise distinct. -/
theorem sortByCreated_eq_of_perm (l₁ l₂ : List CDM) (hp : List.Perm l₁ l₂)
    (hn : (l₁.map CDM.created).Nodup) : sortByCreated l₁ = sortByCreated l₂ := by
  have hs₁ := List.sorted_insertionSort createdLE l₁
  have hs₂ := List.sorted_insertionSort createdLE l₂
  have hperm : List.Perm (sortByCreated l₁) (sortByCreated l₂) :=
    (List.perm_insertionSort createdLE l₁).trans
      (hp.trans (List.perm_insertionSort createdLE l₂).symm)
  have hn₁ : ((sortByCreated l₁).map CDM.created).Nodup :=
    ((List.perm_insertionSort createdLE l₁).map CDM.created).nodup_iff.mpr hn
  have hn₂ : ((sortByCreated l₂).map CDM.created).Nodup :=
    (hperm.map CDM.created).nodup_iff.mp hn₁
  exact List.eq_of_perm_of_sorted hperm
    (sorted_createdLT_of_nodup _ hs₁ hn₁) (sorted_createdLT_of_nodup _ hs₂ hn₂)

/-- C2.  For an event with at least one message and a positive
configured sequence length `L`, the built sequence has exactly `L`
rows; with fewer than `L` messages it is `L − n` all-zero rows followed
by the feature rows of the chronologically sorted history, and with at
least `L` messages it is exactly the feature rows of the most recent
`L` messages, still in chronological order. -/
theorem c2_sequence_padding (ff : FloatFuns) (L : ℕ) (history : List CDM)
    (hL : 1 ≤ L) (hn : 1 ≤ history.length) :
    (buildSequence ff L history).length = L ∧
    (history.length < L →
      buildSequence ff L history =
        List.replicate (L - history.length) zeroRow ++
          (sortByCreated history).map (featureRow ff)) ∧
    (L ≤ history.length →
      buildSequence ff L history =
        ((sortByCreated history).map (featureRow ff)).drop (history.length - L)) ∧
    List.Sorted createdLE (sortByCreated history) := by
  have hlen : ((sortByCreated history).map (featureRow ff)).length = history.length := by
    rw [List.length_map]
    exact (List.perm_insertionSort createdLE history).length_eq
  have hL0 : L ≠ 0 := Nat.one_le_iff_ne_zero.mp hL
  refine ⟨?_, ?_, ?_, List.sorted_insertionSort createdLE history⟩
  · simp only [buildSequence, padOrTruncateRows, pySliceLast, hlen]
    by_cases hc : L ≤ history.length
    · rw [if_pos hc, if_neg hL0, List.length_drop, hlen]
      omega
    · rw [if_neg hc, List.length_append, List.length_replicate, hlen]
      omega
  · intro hlt
    have h1 : ¬ L ≤ history.length := by omega
    simp only [buildSequence, padOrTruncateRows, hlen, if_neg h1]
  · intro hge
    simp only [buildSequence, padOrTruncateRows, pySliceLast, hlen, if_pos hge, if_neg hL0]

/-- C2 witness: a one-message history with `L = 5` yields four leading
zero rows followed by the single real feature row. -/
theorem c2_sequence_padding_witness :
    buildSequence idFuns 5 [mW] =
      List.replicate 4 zeroRow ++ (sortByCreated [mW]).map (featureRow idFuns) :=
  (c2_sequence_padding idFuns 5 [mW] (by decide) (by decide)).2.1 (by decide)

/-- C5.  The claim asserts that permuting the raw report list never
changes the per-event sequences.  When two reports of the same event
share a creation timestamp the sort by CREATED cannot separate them, so
their relative order follows the input order: the same two-message
event yields different sequences (miss-distance features swapped) for
the two input orders, even though the key set agrees. -/
theorem c5_counterexample :
    List.Perm [mA, mB] [mB, mA] ∧
    ((eventSequenceAt idFuns 5 [mA, mB] keyW).map fun r => r.2.1) = [0, 0, 0, 30, 40] ∧
    ((eventSequenceAt idFuns 5 [mB, mA] keyW).map fun r => r.2.1) = [0, 0, 0, 40, 30] ∧
    ((30 : ℚ) == 40) = false := by
  exact ⟨List.Perm.swap mB mA [], rfl, rfl, by decide⟩

/-- C5 (amended).  Grouping is permutation-invariant: the set of event
keys never depends on the input order, and the per-event sequence is
also unchanged provided no two messages of the event share a creation
timestamp (with tied timestamps the stable sort keeps input order, so
a permutation can reorder the tied rows). -/
theorem c5_grouping_perm (ff : FloatFuns) (L : ℕ) (l₁ l₂ : List CDM)
    (hp : List.Perm l₁ l₂) :
    (l₁.map eventKey).toFinset = (l₂.map eventKey).toFinset ∧
    ∀ k : EventKey, ((groupOf l₁ k).map CDM.created).Nodup →
      eventSequenceAt ff L l₁ k = eventSequenceAt ff L l₂ k := by
  constructor
  · exact List.toFinset_eq_of_perm _ _ (hp.map eventKey)
  · intro k hk
    have hg : List.Perm (groupOf l₁ k) (groupOf l₂ k) := hp.filter _
    unfold eventSequenceAt buildSequence
    rw [sortByCreated_eq_of_perm _ _ hg hk]

/-- C5 witness: with distinct creation times, the two orders of the
same two-message event produce identical sequences. -/
theorem c5_grouping_perm_witness :
    eventSequenceAt idFuns 5 [mA, mD] keyW = eventSequenceAt idFuns 5 [mD, mA] keyW :=
  (c5_grouping_perm idFuns 5 [mA, mD] [mD, mA] (List.Perm.swap mD mA [])).2 keyW (by decide)

/-- C4.  The certainty is `1 / (1 + 100·σ)` of the sample standard
deviation σ of the stochastic forward passes: for σ ≥ 0 it is positive
and at most 1, equals 1 exactly at σ = 0, strictly decreases as σ
grows, and tends to 0 as σ tends to infinity; the standard deviation is
never negative, and `calculate_uncertainty` returns exactly this map
applied to the sample standard deviation of its `num_samples`
outputs. -/
theorem c4_certainty_props (s : ℝ) (hs : 0 ≤ s) :
    0 < certaintyOfStd s ∧ certaintyOfStd s ≤ 1 ∧
    (certaintyOfStd s = 1 ↔ s = 0) ∧
    (∀ s₂ : ℝ, s < s₂ → certaintyOfStd s₂ < certaintyOfStd s) ∧
    Filter.Tendsto certaintyOfStd Filter.atTop (nhds 0) ∧
    (∀ outs : List ℝ, 0 ≤ sampleStd outs) ∧
    (∀ (W I N : Type) (fwdT : W → N → I → ℝ) (m : TorchModule W) (x : I)
      (noises : List N),
      (calculate_uncertainty fwdT m x noises).1 =
        certaintyOfStd (sampleStd (noises.map fun nz => fwdT m.weights nz x))) := by
  have hden : (0 : ℝ) < 1 + s * 100 := by nlinarith
  refine ⟨?_, ?_, ?_, ?_, ?_, ?_, ?_⟩
  · exact div_pos one_pos hden
  · rw [certaintyOfStd, div_le_one hden]
    nlinarith
  · constructor
    · intro hone
      rw [certaintyOfStd, div_eq_one_iff_eq (ne_of_gt hden)] at hone
      linarith
    · intro hzero
      rw [certaintyOfStd, hzero]
      norm_num
  · intro s₂ hlt
    have hden₂ : 1 + s * 100 < 1 + s₂ * 100 := by nlinarith
    exact one_div_lt_one_div_of_lt hden hden₂
  · have h1 : Filter.Tendsto (fun t : ℝ => 1 + t * 100) Filter.atTop Filter.atTop :=
      Filter.tendsto_atTop_add_const_left _ 1
        (Filter.Tendsto.atTop_mul_const (by norm_num) Filter.tendsto_id)
    have h2 : certaintyOfStd = fun t : ℝ => (1 + t * 100)⁻¹ := by
      funext t
      rw [certaintyOfStd, one_div]
    rw [h2]
    exact h1.inv_tendsto_atTop
  · intro outs
    exact Real.sqrt_nonneg _
  · intro W I N fwdT m x noises
    rfl

/-- C4 witness: at sample standard deviation 1 the certainty is
positive and at most 1. -/
theorem c4_certainty_props_witness :
    0 < certaintyOfStd 1 ∧ certaintyOfStd 1 ≤ 1 :=
  ⟨(c4_certainty_props 1 zero_le_one).1, (c4_certainty_props 1 zero_le_one).2.1⟩
